import Mathlib

/-!
Verification of the Onyx resource/window lifecycle subsystem.

The GPU texture code is embedded from `src/Onyx/src/Texture.cpp`.  The
OpenGL backend is modelled as explicit state (`GLState`) threaded through
each call, together with a trace of the backend calls issued, so that the
call sequence of each constructor is a provable artifact.

The `Window` implementation is not present under `src/` (only its header
`src/Onyx/src/Window.h` with declarations); its behavior is modelled from
the specification, as marked on each such definition.
-/

/-- GL enumeration constants used by `Texture.cpp`. -/
inductive GLenum where
  | GL_TEXTURE_2D
  | GL_TEXTURE_WRAP_S
  | GL_TEXTURE_WRAP_T
  | GL_MIRRORED_REPEAT
  | GL_TEXTURE_MIN_FILTER
  | GL_NEAREST
  | GL_TEXTURE_MAG_FILTER
  | GL_LINEAR
  | GL_RGB
  | GL_RGBA
  | GL_UNSIGNED_BYTE
  deriving Repr, DecidableEq

/-- One backend (OpenGL) call, with its arguments, as recorded in the trace. -/
inductive GLCall where
  | genTextures (id : Nat)
  | bindTexture (target : GLenum) (id : Nat)
  | texParameteri (target pname param : GLenum)
  | texImage2D (target : GLenum) (level : Nat) (internalformat : GLenum)
      (width height border : Nat) (format : GLenum) (pixeltype : GLenum)
      (data : List Nat)
  | generateMipmap (target : GLenum)
  | deleteTextures (id : Nat)
  deriving Repr, DecidableEq

/-- The modelled OpenGL driver state: the next texture name to hand out
(texture names handed out by `glGenTextures` are never 0), the set of live
texture names, the texture currently bound to the 2D target, and the trace
of calls issued so far. -/
structure GLState where
  nextTex : Nat
  live : List Nat
  bound2D : Nat
  trace : List GLCall
  deriving Repr, DecidableEq

/-- `glGenTextures(1, &tex)`: hands out a fresh texture name. -/
def glGenTextures (s : GLState) : Nat × GLState :=
  (s.nextTex,
   { s with
      nextTex := s.nextTex + 1
      live := s.live ++ [s.nextTex]
      trace := s.trace ++ [GLCall.genTextures s.nextTex] })

/-- `glBindTexture(target, id)`. -/
def glBindTexture (target : GLenum) (id : Nat) (s : GLState) : GLState :=
  { s with
      bound2D := id
      trace := s.trace ++ [GLCall.bindTexture target id] }

/-- `glTexParameteri(target, pname, param)`. -/
def glTexParameteri (target pname param : GLenum) (s : GLState) : GLState :=
  { s with trace := s.trace ++ [GLCall.texParameteri target pname param] }

/-- `glTexImage2D(...)`: uploads pixel data. -/
def glTexImage2D (target : GLenum) (level : Nat) (internalformat : GLenum)
    (width height border : Nat) (format : GLenum) (pixeltype : GLenum)
    (data : List Nat) (s : GLState) : GLState :=
  { s with
      trace := s.trace ++
        [GLCall.texImage2D target level internalformat width height border
          format pixeltype data] }

/-- `glGenerateMipmap(target)`. -/
def glGenerateMipmap (target : GLenum) (s : GLState) : GLState :=
  { s with trace := s.trace ++ [GLCall.generateMipmap target] }

/-- `glDeleteTextures(1, &id)`: releases the name; deleting the name 0 is
silently ignored by GL (erasing 0 from a live list not containing 0 is a
no-op on the live set). -/
def glDeleteTextures (id : Nat) (s : GLState) : GLState :=
  { s with
      live := s.live.erase id
      trace := s.trace ++ [GLCall.deleteTextures id] }

namespace Onyx

/-- Modelled from the spec: `Onyx::ImageData` is not under `src/`; the spec
gives its interface as `getWidth()`, `getHeight()`, `getNChannels()`,
`getData()`, `dispose()` (§6 External Interfaces). -/
structure ImageData where
  width : Nat
  height : Nat
  nChannels : Nat
  data : List Nat
  disposed : Bool
  deriving Repr, DecidableEq

def ImageData.getWidth (d : ImageData) : Nat := d.width

def ImageData.getHeight (d : ImageData) : Nat := d.height

def ImageData.getNChannels (d : ImageData) : Nat := d.nChannels

def ImageData.getData (d : ImageData) : List Nat := d.data

/-- Modelled from the spec: `ImageData::dispose` releases the CPU buffer;
we record this in the `disposed` flag. -/
def ImageData.dispose (d : ImageData) : ImageData := { d with disposed := true }

/-- `Onyx::Texture`: owns a single GPU texture handle `tex`
(`src/Onyx/src/Texture.cpp`). -/
structure Texture where
  tex : Nat
  deriving Repr, DecidableEq

/-- Default constructor `Texture::Texture()`: `tex = 0`. -/
def Texture.mkDefault : Texture := ⟨0⟩

/-- `Texture::Texture(ImageData imageData)` (Texture.cpp lines 10-28).
The parameter is taken by value; the constructor disposes its copy after
the upload.  Returns the constructed texture, the post-state of the image
data copy, and the post-state of the GL driver. -/
def Texture.ofImageData (imageData : ImageData) (s : GLState) :
    Texture × ImageData × GLState :=
  let (tex, s) := glGenTextures s
  let s := glBindTexture GLenum.GL_TEXTURE_2D tex s
  let s := glTexParameteri GLenum.GL_TEXTURE_2D GLenum.GL_TEXTURE_WRAP_S
    GLenum.GL_MIRRORED_REPEAT s
  let s := glTexParameteri GLenum.GL_TEXTURE_2D GLenum.GL_TEXTURE_WRAP_T
    GLenum.GL_MIRRORED_REPEAT s
  let s := glTexParameteri GLenum.GL_TEXTURE_2D GLenum.GL_TEXTURE_MIN_FILTER
    GLenum.GL_NEAREST s
  let s := glTexParameteri GLenum.GL_TEXTURE_2D GLenum.GL_TEXTURE_MAG_FILTER
    GLenum.GL_LINEAR s
  let s := glTexImage2D GLenum.GL_TEXTURE_2D 0
    (if imageData.getNChannels = 4 then GLenum.GL_RGBA else GLenum.GL_RGB)
    imageData.getWidth imageData.getHeight 0
    (if imageData.getNChannels = 4 then GLenum.GL_RGBA else GLenum.GL_RGB)
    GLenum.GL_UNSIGNED_BYTE imageData.getData s
  let s := glGenerateMipmap GLenum.GL_TEXTURE_2D s
  let s := glBindTexture GLenum.GL_TEXTURE_2D 0 s
  let imageData := imageData.dispose
  (⟨tex⟩, imageData, s)

/-- `Texture::Texture(ImageData &imageData, bool disposeImageData)`
(Texture.cpp lines 30-49).  `p_imageData` in the source is a pointer to the
same `imageData` reference, so the getters read the same object; the source
buffer is disposed only when `disposeImageData` is true. -/
def Texture.ofImageData2 (imageData : ImageData) (disposeImageData : Bool)
    (s : GLState) : Texture × ImageData × GLState :=
  let (tex, s) := glGenTextures s
  let s := glBindTexture GLenum.GL_TEXTURE_2D tex s
  let s := glTexParameteri GLenum.GL_TEXTURE_2D GLenum.GL_TEXTURE_WRAP_S
    GLenum.GL_MIRRORED_REPEAT s
  let s := glTexParameteri GLenum.GL_TEXTURE_2D GLenum.GL_TEXTURE_WRAP_T
    GLenum.GL_MIRRORED_REPEAT s
  let s := glTexParameteri GLenum.GL_TEXTURE_2D GLenum.GL_TEXTURE_MIN_FILTER
    GLenum.GL_NEAREST s
  let s := glTexParameteri GLenum.GL_TEXTURE_2D GLenum.GL_TEXTURE_MAG_FILTER
    GLenum.GL_LINEAR s
  let s := glTexImage2D GLenum.GL_TEXTURE_2D 0
    (if imageData.getNChannels = 4 then GLenum.GL_RGBA else GLenum.GL_RGB)
    imageData.getWidth imageData.getHeight 0
    (if imageData.getNChannels = 4 then GLenum.GL_RGBA else GLenum.GL_RGB)
    GLenum.GL_UNSIGNED_BYTE imageData.getData s
  let s := glGenerateMipmap GLenum.GL_TEXTURE_2D s
  let s := glBindTexture GLenum.GL_TEXTURE_2D 0 s
  let imageData := if disposeImageData then imageData.dispose else imageData
  (⟨tex⟩, imageData, s)

/-- `Texture::bind()` (Texture.cpp lines 51-54). -/
def Texture.bind (t : Texture) (s : GLState) : GLState :=
  glBindTexture GLenum.GL_TEXTURE_2D t.tex s

/-- `Texture::getTextureID()` (Texture.cpp lines 56-59). -/
def Texture.getTextureID (t : Texture) : Nat := t.tex

/-- `Texture::dispose()` (Texture.cpp lines 61-65):
`glDeleteTextures(1, &tex); tex = 0;`. -/
def Texture.dispose (t : Texture) (s : GLState) : Texture × GLState :=
  let s := glDeleteTextures t.tex s
  ({ t with tex := 0 }, s)

/-- Modelled from the spec: `Onyx::Camera` is an external collaborator
(§6) exposing `isPerspective() -> bool` and a set-aspect operation; its
implementation is not under `src/`.  The aspect value is modelled as a
rational. -/
structure Camera where
  persp : Bool
  aspect : ℚ
  deriving Repr, DecidableEq

/-- Modelled from the spec: `Camera::isPerspective()`. -/
def Camera.isPersp (c : Camera) : Bool := c.persp

/-- Modelled from the spec: the camera's set-aspect operation. -/
def Camera.setAspect (c : Camera) (a : ℚ) : Camera := { c with aspect := a }

/-- One recorded call to the windowing backend (GLFW), for the
spec-modelled window operations. -/
inductive WinCall where
  | createWindow (handle : Nat) (title : String) (width height : Nat)
  | fullscreenPlacement (handle width height : Nat)
  | windowedPlacement (handle width height : Nat)
  | destroyWindow (handle : Nat)
  deriving Repr, DecidableEq

/-- Modelled from the spec: the windowing backend state — fresh native
handles (never the null sentinel 0), the live native windows, whether
native window/context creation currently succeeds (an
InitializationFault otherwise), the cached primary-monitor video mode
dimensions, and the trace of placement/lifetime calls. -/
structure WinBackend where
  nextHandle : Nat
  liveWindows : List Nat
  canCreate : Bool
  monitorWidth : Nat
  monitorHeight : Nat
  trace : List WinCall
  deriving Repr, DecidableEq

/-- Modelled from the spec: `Onyx::Window` state (Window.h lines 181-194
declare the fields; the implementation is not under `src/`).  Input
handler and text renderer attachments are omitted: no claim touches
them. -/
structure Window where
  p_window : Nat
  title : String
  width : Nat
  height : Nat
  bufferWidth : Nat
  bufferHeight : Nat
  fullscreen : Bool
  initialized : Bool
  shouldClose : Bool
  cam : Option Camera
  deriving Repr, DecidableEq

/-- Modelled from the spec: `Window::Window(title, width, height)` creates
an uninitialized window (handle at the null sentinel, not initialized, not
closing, windowed, no camera attached). -/
def Window.make (title : String) (width height : Nat) : Window :=
  { p_window := 0, title := title, width := width, height := height
    bufferWidth := 0, bufferHeight := 0
    fullscreen := false, initialized := false, shouldClose := false
    cam := none }

/-- Modelled from the spec: `Window::init()` — idempotent guard (if
already initialized, must not re-create the backend handle); otherwise
creates the native window/context with the stored title/width/height,
which can fail (InitializationFault, modelled as `none`), and marks
`initialized = true`. -/
def Window.init (w : Window) (b : WinBackend) : Option (Window × WinBackend) :=
  if w.initialized then some (w, b)
  else if b.canCreate then
    some
      ({ w with
          p_window := b.nextHandle
          initialized := true
          shouldClose := false
          bufferWidth := w.width
          bufferHeight := w.height },
       { b with
          nextHandle := b.nextHandle + 1
          liveWindows := b.liveWindows ++ [b.nextHandle]
          trace := b.trace ++ [WinCall.createWindow b.nextHandle w.title w.width w.height] })
  else none

/-- Modelled from the spec: `Window::close()` signals the backend to mark
the window closed; `isOpen()` must reflect this on the next call. -/
def Window.close (w : Window) : Window := { w with shouldClose := true }

/-- Modelled from the spec: `Window::isOpen()` — true once `init()` has
succeeded and until `close()` is called. -/
def Window.isOpen (w : Window) : Bool := w.initialized && !w.shouldClose

/-- Modelled from the spec: `Window::isInitialized()`. -/
def Window.isInitialized (w : Window) : Bool := w.initialized

/-- Modelled from the spec: `Window::setFullscreen()` — sets the
fullscreen flag and re-applies backend window placement using the cached
primary-monitor video mode; the stored logical width/height are kept for
returning to windowed mode. -/
def Window.setFullscreen (w : Window) (b : WinBackend) : Window × WinBackend :=
  ({ w with fullscreen := true },
   { b with
      trace := b.trace ++
        [WinCall.fullscreenPlacement w.p_window b.monitorWidth b.monitorHeight] })

/-- Modelled from the spec: `Window::setWindowed()` — clears the
fullscreen flag and re-applies backend placement using the stored logical
width/height. -/
def Window.setWindowed (w : Window) (b : WinBackend) : Window × WinBackend :=
  ({ w with fullscreen := false },
   { b with
      trace := b.trace ++ [WinCall.windowedPlacement w.p_window w.width w.height] })

/-- Modelled from the spec: `Window::toggleFullscreen()` (Window.h lines
85-88) switches between the two placement modes. -/
def Window.toggleFullscreen (w : Window) (b : WinBackend) : Window × WinBackend :=
  if w.fullscreen then w.setWindowed b else w.setFullscreen b

/-- Modelled from the spec: `Window::setCamera(cam)` attaches the camera
(last write wins). -/
def Window.setCamera (w : Window) (c : Camera) : Window := { w with cam := some c }

/-- Modelled from the spec: `Window::dispose()` (Window.h lines 174-179)
— destroys the native handle if there is one, resets it to the sentinel
and resets `initialized = false`; idempotently safe on an already-disposed
or never-initialized window (no backend call in that case). -/
def Window.dispose (w : Window) (b : WinBackend) : Window × WinBackend :=
  if w.p_window = 0 then (w, b)
  else
    ({ w with p_window := 0, initialized := false },
     { b with
        liveWindows := b.liveWindows.erase w.p_window
        trace := b.trace ++ [WinCall.destroyWindow w.p_window] })

/-- Modelled from the spec: the framebuffer-size trampoline
`Window::CB_framebufferSize` (Window.h line 196) — updates the cached
buffer width/height; if a camera is attached and its projection is
perspective, recomputes its aspect from the new buffer dimensions
(aspect sync is defined only for perspective projection; with no camera
attached the update is silently skipped). -/
def Window.CB_framebufferSize (w : Window) (width height : Nat) : Window :=
  { w with
      bufferWidth := width
      bufferHeight := height
      cam :=
        match w.cam with
        | none => none
        | some c =>
            some (if c.isPersp then c.setAspect ((width : ℚ) / (height : ℚ)) else c) }

end Onyx

/-- C1: for every image data with width > 0, height > 0 and channel count
in {3,4}, either Texture constructor yields an object whose handle is
non-sentinel (`getTextureID ≠ 0`), and calling `dispose` on that object
afterwards resets the handle to the sentinel (`getTextureID = 0`).  The
hypothesis `0 < s.nextTex` is the driver invariant that `glGenTextures`
never hands out the reserved name 0. -/
theorem texture_lifecycle_handle (img : Onyx.ImageData) (s : GLState) (b : Bool)
    (hw : 0 < img.width) (hh : 0 < img.height)
    (hc : img.nChannels = 3 ∨ img.nChannels = 4) (hs : 0 < s.nextTex) :
    (Onyx.Texture.ofImageData img s).1.getTextureID ≠ 0 ∧
    (Onyx.Texture.ofImageData2 img b s).1.getTextureID ≠ 0 ∧
    ((Onyx.Texture.ofImageData img s).1.dispose
        (Onyx.Texture.ofImageData img s).2.2).1.getTextureID = 0 ∧
    ((Onyx.Texture.ofImageData2 img b s).1.dispose
        (Onyx.Texture.ofImageData2 img b s).2.2).1.getTextureID = 0 := by
  refine ⟨?_, ?_, rfl, rfl⟩ <;>
    · simp only [Onyx.Texture.ofImageData, Onyx.Texture.ofImageData2,
        glGenTextures, Onyx.Texture.getTextureID]
      omega

/-- C1 witness: the lifecycle property evaluated at a concrete 2x2 RGB
image and a fresh driver state. -/
theorem texture_lifecycle_handle_witness :
    (Onyx.Texture.ofImageData ⟨2, 2, 3, [7], false⟩ ⟨1, [], 0, []⟩).1.getTextureID ≠ 0 ∧
    (Onyx.Texture.ofImageData2 ⟨2, 2, 3, [7], false⟩ true ⟨1, [], 0, []⟩).1.getTextureID ≠ 0 ∧
    ((Onyx.Texture.ofImageData ⟨2, 2, 3, [7], false⟩ ⟨1, [], 0, []⟩).1.dispose
        (Onyx.Texture.ofImageData ⟨2, 2, 3, [7], false⟩ ⟨1, [], 0, []⟩).2.2).1.getTextureID = 0 ∧
    ((Onyx.Texture.ofImageData2 ⟨2, 2, 3, [7], false⟩ true ⟨1, [], 0, []⟩).1.dispose
        (Onyx.Texture.ofImageData2 ⟨2, 2, 3, [7], false⟩ true ⟨1, [], 0, []⟩).2.2).1.getTextureID = 0 :=
  texture_lifecycle_handle ⟨2, 2, 3, [7], false⟩ ⟨1, [], 0, []⟩ true
    (by decide) (by decide) (Or.inl rfl) (by decide)

/-- C3: the single-argument Texture constructor performs, in order:
allocate a handle, bind it, set wrap mode to mirrored-repeat on both axes,
set min filter to nearest and mag filter to linear, upload the pixels with
format RGB for 3 channels and RGBA for 4 channels, generate the mip chain,
and unbind the 2D target. -/
theorem texture_ctor_call_sequence (img : Onyx.ImageData) (s : GLState) :
    (img.nChannels = 3 →
      (Onyx.Texture.ofImageData img s).2.2.trace = s.trace ++
        [GLCall.genTextures s.nextTex,
         GLCall.bindTexture GLenum.GL_TEXTURE_2D s.nextTex,
         GLCall.texParameteri GLenum.GL_TEXTURE_2D GLenum.GL_TEXTURE_WRAP_S
           GLenum.GL_MIRRORED_REPEAT,
         GLCall.texParameteri GLenum.GL_TEXTURE_2D GLenum.GL_TEXTURE_WRAP_T
           GLenum.GL_MIRRORED_REPEAT,
         GLCall.texParameteri GLenum.GL_TEXTURE_2D GLenum.GL_TEXTURE_MIN_FILTER
           GLenum.GL_NEAREST,
         GLCall.texParameteri GLenum.GL_TEXTURE_2D GLenum.GL_TEXTURE_MAG_FILTER
           GLenum.GL_LINEAR,
         GLCall.texImage2D GLenum.GL_TEXTURE_2D 0 GLenum.GL_RGB
           img.width img.height 0 GLenum.GL_RGB GLenum.GL_UNSIGNED_BYTE img.data,
         GLCall.generateMipmap GLenum.GL_TEXTURE_2D,
         GLCall.bindTexture GLenum.GL_TEXTURE_2D 0]) ∧
    (img.nChannels = 4 →
      (Onyx.Texture.ofImageData img s).2.2.trace = s.trace ++
        [GLCall.genTextures s.nextTex,
         GLCall.bindTexture GLenum.GL_TEXTURE_2D s.nextTex,
         GLCall.texParameteri GLenum.GL_TEXTURE_2D GLenum.GL_TEXTURE_WRAP_S
           GLenum.GL_MIRRORED_REPEAT,
         GLCall.texParameteri GLenum.GL_TEXTURE_2D GLenum.GL_TEXTURE_WRAP_T
           GLenum.GL_MIRRORED_REPEAT,
         GLCall.texParameteri GLenum.GL_TEXTURE_2D GLenum.GL_TEXTURE_MIN_FILTER
           GLenum.GL_NEAREST,
         GLCall.texParameteri GLenum.GL_TEXTURE_2D GLenum.GL_TEXTURE_MAG_FILTER
           GLenum.GL_LINEAR,
         GLCall.texImage2D GLenum.GL_TEXTURE_2D 0 GLenum.GL_RGBA
           img.width img.height 0 GLenum.GL_RGBA GLenum.GL_UNSIGNED_BYTE img.data,
         GLCall.generateMipmap GLenum.GL_TEXTURE_2D,
         GLCall.bindTexture GLenum.GL_TEXTURE_2D 0]) := by
  constructor <;> intro h <;>
    simp [Onyx.Texture.ofImageData, glGenTextures, glBindTexture, glTexParameteri,
      glTexImage2D, glGenerateMipmap, Onyx.ImageData.getNChannels,
      Onyx.ImageData.getWidth, Onyx.ImageData.getHeight, Onyx.ImageData.getData, h]

/-- C3 witness: the recorded call sequence at a concrete 3-channel and a
concrete 4-channel image, from a fresh driver state. -/
theorem texture_ctor_call_sequence_witness :
    (Onyx.Texture.ofImageData ⟨2, 3, 3, [9], false⟩ ⟨1, [], 0, []⟩).2.2.trace =
      [GLCall.genTextures 1,
       GLCall.bindTexture GLenum.GL_TEXTURE_2D 1,
       GLCall.texParameteri GLenum.GL_TEXTURE_2D GLenum.GL_TEXTURE_WRAP_S
         GLenum.GL_MIRRORED_REPEAT,
       GLCall.texParameteri GLenum.GL_TEXTURE_2D GLenum.GL_TEXTURE_WRAP_T
         GLenum.GL_MIRRORED_REPEAT,
       GLCall.texParameteri GLenum.GL_TEXTURE_2D GLenum.GL_TEXTURE_MIN_FILTER
         GLenum.GL_NEAREST,
       GLCall.texParameteri GLenum.GL_TEXTURE_2D GLenum.GL_TEXTURE_MAG_FILTER
         GLenum.GL_LINEAR,
       GLCall.texImage2D GLenum.GL_TEXTURE_2D 0 GLenum.GL_RGB 2 3 0
         GLenum.GL_RGB GLenum.GL_UNSIGNED_BYTE [9],
       GLCall.generateMipmap GLenum.GL_TEXTURE_2D,
       GLCall.bindTexture GLenum.GL_TEXTURE_2D 0] ∧
    (Onyx.Texture.ofImageData ⟨2, 3, 4, [9], false⟩ ⟨1, [], 0, []⟩).2.2.trace =
      [GLCall.genTextures 1,
       GLCall.bindTexture GLenum.GL_TEXTURE_2D 1,
       GLCall.texParameteri GLenum.GL_TEXTURE_2D GLenum.GL_TEXTURE_WRAP_S
         GLenum.GL_MIRRORED_REPEAT,
       GLCall.texParameteri GLenum.GL_TEXTURE_2D GLenum.GL_TEXTURE_WRAP_T
         GLenum.GL_MIRRORED_REPEAT,
       GLCall.texParameteri GLenum.GL_TEXTURE_2D GLenum.GL_TEXTURE_MIN_FILTER
         GLenum.GL_NEAREST,
       GLCall.texParameteri GLenum.GL_TEXTURE_2D GLenum.GL_TEXTURE_MAG_FILTER
         GLenum.GL_LINEAR,
       GLCall.texImage2D GLenum.GL_TEXTURE_2D 0 GLenum.GL_RGBA 2 3 0
         GLenum.GL_RGBA GLenum.GL_UNSIGNED_BYTE [9],
       GLCall.generateMipmap GLenum.GL_TEXTURE_2D,
       GLCall.bindTexture GLenum.GL_TEXTURE_2D 0] :=
  ⟨(texture_ctor_call_sequence ⟨2, 3, 3, [9], false⟩ ⟨1, [], 0, []⟩).1 rfl,
   (texture_ctor_call_sequence ⟨2, 3, 4, [9], false⟩ ⟨1, [], 0, []⟩).2 rfl⟩

/-- C4: the single-argument Texture constructor always disposes the source
CPU image buffer as part of construction. -/
theorem texture_ctor_disposes_source (img : Onyx.ImageData) (s : GLState) :
    (Onyx.Texture.ofImageData img s).2.1 = img.dispose ∧
    (Onyx.Texture.ofImageData img s).2.1.disposed = true :=
  ⟨rfl, rfl⟩

/-- C5: the two-argument Texture constructor disposes the source CPU
buffer exactly when the flag is true; with the flag false the image data
is returned unchanged, so it can be reused. -/
theorem texture_ctor2_dispose_flag (img : Onyx.ImageData) (b : Bool) (s : GLState) :
    (Onyx.Texture.ofImageData2 img b s).2.1 = if b then img.dispose else img := by
  cases b <;> rfl

/-- C6: the single-argument constructor and the two-argument constructor
with disposeImageData = true coincide entirely: same texture, same
resulting image data, same backend state and call trace. -/
theorem texture_ctors_equivalent (img : Onyx.ImageData) (s : GLState) :
    Onyx.Texture.ofImageData img s = Onyx.Texture.ofImageData2 img true s := rfl

/-- C10: whenever the channel count is not 4 (including out-of-contract
values such as 1 or 2), both constructors upload with the RGB format; RGBA
is selected only at exactly 4 channels. -/
theorem texture_format_rgb_unless_four (img : Onyx.ImageData) (b : Bool)
    (s : GLState) (h : img.nChannels ≠ 4) :
    (Onyx.Texture.ofImageData img s).2.2.trace = s.trace ++
      [GLCall.genTextures s.nextTex,
       GLCall.bindTexture GLenum.GL_TEXTURE_2D s.nextTex,
       GLCall.texParameteri GLenum.GL_TEXTURE_2D GLenum.GL_TEXTURE_WRAP_S
         GLenum.GL_MIRRORED_REPEAT,
       GLCall.texParameteri GLenum.GL_TEXTURE_2D GLenum.GL_TEXTURE_WRAP_T
         GLenum.GL_MIRRORED_REPEAT,
       GLCall.texParameteri GLenum.GL_TEXTURE_2D GLenum.GL_TEXTURE_MIN_FILTER
         GLenum.GL_NEAREST,
       GLCall.texParameteri GLenum.GL_TEXTURE_2D GLenum.GL_TEXTURE_MAG_FILTER
         GLenum.GL_LINEAR,
       GLCall.texImage2D GLenum.GL_TEXTURE_2D 0 GLenum.GL_RGB
         img.width img.height 0 GLenum.GL_RGB GLenum.GL_UNSIGNED_BYTE img.data,
       GLCall.generateMipmap GLenum.GL_TEXTURE_2D,
       GLCall.bindTexture GLenum.GL_TEXTURE_2D 0] ∧
    (Onyx.Texture.ofImageData2 img b s).2.2.trace = s.trace ++
      [GLCall.genTextures s.nextTex,
       GLCall.bindTexture GLenum.GL_TEXTURE_2D s.nextTex,
       GLCall.texParameteri GLenum.GL_TEXTURE_2D GLenum.GL_TEXTURE_WRAP_S
         GLenum.GL_MIRRORED_REPEAT,
       GLCall.texParameteri GLenum.GL_TEXTURE_2D GLenum.GL_TEXTURE_WRAP_T
         GLenum.GL_MIRRORED_REPEAT,
       GLCall.texParameteri GLenum.GL_TEXTURE_2D GLenum.GL_TEXTURE_MIN_FILTER
         GLenum.GL_NEAREST,
       GLCall.texParameteri GLenum.GL_TEXTURE_2D GLenum.GL_TEXTURE_MAG_FILTER
         GLenum.GL_LINEAR,
       GLCall.texImage2D GLenum.GL_TEXTURE_2D 0 GLenum.GL_RGB
         img.width img.height 0 GLenum.GL_RGB GLenum.GL_UNSIGNED_BYTE img.data,
       GLCall.generateMipmap GLenum.GL_TEXTURE_2D,
       GLCall.bindTexture GLenum.GL_TEXTURE_2D 0] := by
  constructor <;>
    simp [Onyx.Texture.ofImageData, Onyx.Texture.ofImageData2, glGenTextures,
      glBindTexture, glTexParameteri, glTexImage2D, glGenerateMipmap,
      Onyx.ImageData.getNChannels, Onyx.ImageData.getWidth,
      Onyx.ImageData.getHeight, Onyx.ImageData.getData, h]

/-- C10 witness: a 2-channel image (outside the documented {3,4} contract)
uploads as RGB in both constructors. -/
theorem texture_format_rgb_unless_four_witness :
    (Onyx.Texture.ofImageData ⟨5, 6, 2, [1, 2], false⟩ ⟨1, [], 0, []⟩).2.2.trace =
      [GLCall.genTextures 1,
       GLCall.bindTexture GLenum.GL_TEXTURE_2D 1,
       GLCall.texParameteri GLenum.GL_TEXTURE_2D GLenum.GL_TEXTURE_WRAP_S
         GLenum.GL_MIRRORED_REPEAT,
       GLCall.texParameteri GLenum.GL_TEXTURE_2D GLenum.GL_TEXTURE_WRAP_T
         GLenum.GL_MIRRORED_REPEAT,
       GLCall.texParameteri GLenum.GL_TEXTURE_2D GLenum.GL_TEXTURE_MIN_FILTER
         GLenum.GL_NEAREST,
       GLCall.texParameteri GLenum.GL_TEXTURE_2D GLenum.GL_TEXTURE_MAG_FILTER
         GLenum.GL_LINEAR,
       GLCall.texImage2D GLenum.GL_TEXTURE_2D 0 GLenum.GL_RGB 5 6 0
         GLenum.GL_RGB GLenum.GL_UNSIGNED_BYTE [1, 2],
       GLCall.generateMipmap GLenum.GL_TEXTURE_2D,
       GLCall.bindTexture GLenum.GL_TEXTURE_2D 0] ∧
    (Onyx.Texture.ofImageData2 ⟨5, 6, 2, [1, 2], false⟩ false ⟨1, [], 0, []⟩).2.2.trace =
      [GLCall.genTextures 1,
       GLCall.bindTexture GLenum.GL_TEXTURE_2D 1,
       GLCall.texParameteri GLenum.GL_TEXTURE_2D GLenum.GL_TEXTURE_WRAP_S
         GLenum.GL_MIRRORED_REPEAT,
       GLCall.texParameteri GLenum.GL_TEXTURE_2D GLenum.GL_TEXTURE_WRAP_T
         GLenum.GL_MIRRORED_REPEAT,
       GLCall.texParameteri GLenum.GL_TEXTURE_2D GLenum.GL_TEXTURE_MIN_FILTER
         GLenum.GL_NEAREST,
       GLCall.texParameteri GLenum.GL_TEXTURE_2D GLenum.GL_TEXTURE_MAG_FILTER
         GLenum.GL_LINEAR,
       GLCall.texImage2D GLenum.GL_TEXTURE_2D 0 GLenum.GL_RGB 5 6 0
         GLenum.GL_RGB GLenum.GL_UNSIGNED_BYTE [1, 2],
       GLCall.generateMipmap GLenum.GL_TEXTURE_2D,
       GLCall.bindTexture GLenum.GL_TEXTURE_2D 0] :=
  texture_format_rgb_unless_four ⟨5, 6, 2, [1, 2], false⟩ false ⟨1, [], 0, []⟩
    (by decide)

/-- C2: dispose() is idempotent.  A second `Texture.dispose` after a first
one leaves the handle at the sentinel and releases no further backend
allocation (the live-texture set is unchanged: deleting the name 0 is
ignored), and a second `Window.dispose` is a complete no-op, the handle
having been left at the sentinel by the first.  The hypothesis is the
driver invariant that the reserved name 0 is never live. -/
theorem dispose_idempotent (t : Onyx.Texture) (s : GLState)
    (w : Onyx.Window) (b : Onyx.WinBackend) (h0 : (0 : Nat) ∉ s.live) :
    ((t.dispose s).1.dispose (t.dispose s).2).1.getTextureID = 0 ∧
    ((t.dispose s).1.dispose (t.dispose s).2).2.live = (t.dispose s).2.live ∧
    (w.dispose b).1.dispose (w.dispose b).2 = w.dispose b ∧
    (w.dispose b).1.p_window = 0 := by
  refine ⟨rfl, ?_, ?_, ?_⟩
  · have h1 : (0 : Nat) ∉ s.live.erase t.tex :=
      fun hmem => h0 (List.mem_of_mem_erase hmem)
    simp [Onyx.Texture.dispose, glDeleteTextures, List.erase_of_not_mem h1]
  · by_cases hp : w.p_window = 0 <;>
      simp [Onyx.Window.dispose, hp]
  · by_cases hp : w.p_window = 0 <;>
      simp [Onyx.Window.dispose, hp]

/-- C2 witness: double dispose evaluated on a concrete texture with the
live name 5 and on a concrete initialized window with native handle 1. -/
theorem dispose_idempotent_witness :
    ((Onyx.Texture.dispose ⟨5⟩ ⟨6, [5], 0, []⟩).1.dispose
        (Onyx.Texture.dispose ⟨5⟩ ⟨6, [5], 0, []⟩).2).1.getTextureID = 0 ∧
    ((Onyx.Texture.dispose ⟨5⟩ ⟨6, [5], 0, []⟩).1.dispose
        (Onyx.Texture.dispose ⟨5⟩ ⟨6, [5], 0, []⟩).2).2.live =
      (Onyx.Texture.dispose ⟨5⟩ ⟨6, [5], 0, []⟩).2.live ∧
    (Onyx.Window.dispose
        ((Onyx.Window.dispose ⟨1, "w", 800, 600, 800, 600, false, true, false, none⟩
            ⟨2, [1], true, 1920, 1080, []⟩).1)
        ((Onyx.Window.dispose ⟨1, "w", 800, 600, 800, 600, false, true, false, none⟩
            ⟨2, [1], true, 1920, 1080, []⟩).2) =
      Onyx.Window.dispose ⟨1, "w", 800, 600, 800, 600, false, true, false, none⟩
        ⟨2, [1], true, 1920, 1080, []⟩) ∧
    (Onyx.Window.dispose ⟨1, "w", 800, 600, 800, 600, false, true, false, none⟩
        ⟨2, [1], true, 1920, 1080, []⟩).1.p_window = 0 :=
  dispose_idempotent ⟨5⟩ ⟨6, [5], 0, []⟩
    ⟨1, "w", 800, 600, 800, 600, false, true, false, none⟩
    ⟨2, [1], true, 1920, 1080, []⟩ (by decide)

/-- C7: on a window not yet initialized, if `init` succeeds then `isOpen`
returns true, and after `close` the next `isOpen` returns false with no
render cycle in between. -/
theorem window_close_isOpen (w w2 : Onyx.Window) (b b2 : Onyx.WinBackend)
    (h0 : w.initialized = false) (h : w.init b = some (w2, b2)) :
    w2.isOpen = true ∧ (w2.close).isOpen = false := by
  by_cases hc : b.canCreate = true
  · simp only [Onyx.Window.init, h0, Bool.false_eq_true, if_false, hc, if_true,
      Option.some.injEq, Prod.mk.injEq] at h
    obtain ⟨hw2, hb2⟩ := h
    subst hw2
    simp [Onyx.Window.isOpen, Onyx.Window.close]
  · simp [Onyx.Window.init, h0, hc] at h

/-- C7 witness: `init` succeeding on a fresh 800x600 window against a
backend that can create windows. -/
theorem window_close_isOpen_witness :
    Onyx.Window.isOpen
      ⟨1, "Onyx Window", 800, 600, 800, 600, false, true, false, none⟩ = true ∧
    Onyx.Window.isOpen
      (Onyx.Window.close
        ⟨1, "Onyx Window", 800, 600, 800, 600, false, true, false, none⟩) = false :=
  window_close_isOpen (Onyx.Window.make "Onyx Window" 800 600)
    ⟨1, "Onyx Window", 800, 600, 800, 600, false, true, false, none⟩
    ⟨1, [], true, 1920, 1080, []⟩
    ⟨2, [1], true, 1920, 1080, [Onyx.WinCall.createWindow 1 "Onyx Window" 800 600]⟩
    rfl rfl

/-- C8: on an initialized window, `toggleFullscreen` twice restores the
original logical width, logical height, and fullscreen flag. -/
theorem window_toggleFullscreen_roundtrip (w : Onyx.Window) (b : Onyx.WinBackend)
    (h : w.initialized = true) :
    ((w.toggleFullscreen b).1.toggleFullscreen (w.toggleFullscreen b).2).1.width =
      w.width ∧
    ((w.toggleFullscreen b).1.toggleFullscreen (w.toggleFullscreen b).2).1.height =
      w.height ∧
    ((w.toggleFullscreen b).1.toggleFullscreen (w.toggleFullscreen b).2).1.fullscreen =
      w.fullscreen := by
  cases hf : w.fullscreen <;>
    simp [Onyx.Window.toggleFullscreen, Onyx.Window.setFullscreen,
      Onyx.Window.setWindowed, hf]

/-- C8 witness: the double toggle evaluated on a concrete initialized
windowed 800x600 window. -/
theorem window_toggleFullscreen_roundtrip_witness :
    ((Onyx.Window.toggleFullscreen
        ⟨1, "w", 800, 600, 800, 600, false, true, false, none⟩
        ⟨2, [1], true, 1920, 1080, []⟩).1.toggleFullscreen
      (Onyx.Window.toggleFullscreen
        ⟨1, "w", 800, 600, 800, 600, false, true, false, none⟩
        ⟨2, [1], true, 1920, 1080, []⟩).2).1.width = 800 ∧
    ((Onyx.Window.toggleFullscreen
        ⟨1, "w", 800, 600, 800, 600, false, true, false, none⟩
        ⟨2, [1], true, 1920, 1080, []⟩).1.toggleFullscreen
      (Onyx.Window.toggleFullscreen
        ⟨1, "w", 800, 600, 800, 600, false, true, false, none⟩
        ⟨2, [1], true, 1920, 1080, []⟩).2).1.height = 600 ∧
    ((Onyx.Window.toggleFullscreen
        ⟨1, "w", 800, 600, 800, 600, false, true, false, none⟩
        ⟨2, [1], true, 1920, 1080, []⟩).1.toggleFullscreen
      (Onyx.Window.toggleFullscreen
        ⟨1, "w", 800, 600, 800, 600, false, true, false, none⟩
        ⟨2, [1], true, 1920, 1080, []⟩).2).1.fullscreen = false :=
  window_toggleFullscreen_roundtrip
    ⟨1, "w", 800, 600, 800, 600, false, true, false, none⟩
    ⟨2, [1], true, 1920, 1080, []⟩ rfl

/-- C9: a framebuffer-resize event to (W, H) updates the cached buffer
dimensions; a camera attached with perspective projection ends with aspect
W/H, an attached orthographic camera is left unchanged, and with no camera
attached the aspect update is silently skipped (the attachment stays
empty, no fault). -/
theorem window_resize_camera_sync (w : Onyx.Window) (c : Onyx.Camera)
    (width height : Nat) :
    (w.CB_framebufferSize width height).bufferWidth = width ∧
    (w.CB_framebufferSize width height).bufferHeight = height ∧
    (w.cam = none → (w.CB_framebufferSize width height).cam = none) ∧
    (w.cam = some c → c.persp = true →
      (w.CB_framebufferSize width height).cam =
        some { c with aspect := (width : ℚ) / (height : ℚ) }) ∧
    (w.cam = some c → c.persp = false →
      (w.CB_framebufferSize width height).cam = some c) := by
  refine ⟨rfl, rfl, ?_, ?_, ?_⟩
  · intro hc
    simp [Onyx.Window.CB_framebufferSize, hc]
  · intro hc hp
    simp [Onyx.Window.CB_framebufferSize, hc, Onyx.Camera.isPersp, hp,
      Onyx.Camera.setAspect]
  · intro hc hp
    simp [Onyx.Window.CB_framebufferSize, hc, Onyx.Camera.isPersp, hp]

/-- C9 witness: a resize to 8x6 with a perspective camera attached yields
aspect 8/6 = 4/3; the same resize with an orthographic camera attached
leaves the camera unchanged. -/
theorem window_resize_camera_sync_witness :
    (Onyx.Window.CB_framebufferSize
      ⟨1, "w", 4, 3, 4, 3, false, true, false, some ⟨true, 1⟩⟩ 8 6).bufferWidth = 8 ∧
    (Onyx.Window.CB_framebufferSize
      ⟨1, "w", 4, 3, 4, 3, false, true, false, some ⟨true, 1⟩⟩ 8 6).bufferHeight = 6 ∧
    (Onyx.Window.CB_framebufferSize
      ⟨1, "w", 4, 3, 4, 3, false, true, false, some ⟨true, 1⟩⟩ 8 6).cam =
      some ⟨true, (8 : ℚ) / 6⟩ ∧
    (Onyx.Window.CB_framebufferSize
      ⟨1, "w", 4, 3, 4, 3, false, true, false, some ⟨false, 1⟩⟩ 8 6).cam =
      some ⟨false, 1⟩ :=
  ⟨(window_resize_camera_sync
      ⟨1, "w", 4, 3, 4, 3, false, true, false, some ⟨true, 1⟩⟩ ⟨true, 1⟩ 8 6).1,
   (window_resize_camera_sync
      ⟨1, "w", 4, 3, 4, 3, false, true, false, some ⟨true, 1⟩⟩ ⟨true, 1⟩ 8 6).2.1,
   (window_resize_camera_sync
      ⟨1, "w", 4, 3, 4, 3, false, true, false, some ⟨true, 1⟩⟩ ⟨true, 1⟩ 8 6).2.2.2.1
     rfl rfl,
   (window_resize_camera_sync
      ⟨1, "w", 4, 3, 4, 3, false, true, false, some ⟨false, 1⟩⟩ ⟨false, 1⟩ 8 6).2.2.2.2
     rfl rfl⟩
